import Mathlib

/-!
Formal model of the chai-backend relationship/read-model core.

The controllers in `src/controllers` are embedded as pure functions over an
explicit store state `DB`.  MongoDB collections become lists of records,
`findById` / `findOne` become `List.find?` on the collection, `create` appends
a fresh record, `findByIdAndDelete` removes the record with the given id,
`findByIdAndUpdate {$set: ...}` maps a field update over the record with the
given id.  Controllers that `throw new ApiError(...)` return
`Except.error` together with the unchanged store; successful handlers return
`Except.ok payload` together with the updated store.
-/

namespace Chai

/-- Error value thrown by the controllers (`ApiError` in the source): an HTTP
status code plus a message. -/
structure ApiError where
  code : Nat
  msg : String
deriving DecidableEq, Repr

/-- A `Video` document (`video.model`): fields read and written by
`video.controller.js`. -/
structure Video where
  id : Nat
  owner : Nat
  title : String
  description : String
  videoFile : String
  thumbnail : String
  duration : Nat
  views : Nat
  isPublished : Bool
  createdAt : Nat
deriving DecidableEq, Repr

/-- A `Subscription` document (`subscription.model`): a FOLLOW edge
`subscriber -> channel`. -/
structure Subscription where
  id : Nat
  subscriber : Nat
  channel : Nat
  createdAt : Nat
deriving DecidableEq, Repr

/-- A `Like` document (`like.model`): a LIKE edge from `likedBy` to exactly one
of a video, a comment (the source stores it under the key `Comment`) or a
tweet.  The three optional target fields mirror the keys the like controller
writes: `video`, `Comment` (held here in the field `comment`) and `tweet`. -/
structure Like where
  id : Nat
  likedBy : Nat
  video : Option Nat
  comment : Option Nat
  tweet : Option Nat
  createdAt : Nat
deriving DecidableEq, Repr

/-- A `Comment` document: body text attached to a video by an owner. -/
structure Comment where
  id : Nat
  owner : Nat
  video : Nat
  content : String
  createdAt : Nat
deriving DecidableEq, Repr

/-- A `Tweet` document (`tweet.model`): a short post with an owner. -/
structure Tweet where
  id : Nat
  owner : Nat
  content : String
  createdAt : Nat
deriving DecidableEq, Repr

/-- A `Playlist` document (`playlist.model`): name, description and the list
of member video ids, owned by one actor. -/
structure Playlist where
  id : Nat
  owner : Nat
  name : String
  description : String
  videos : List Nat
  createdAt : Nat
deriving DecidableEq, Repr

/-- The persistent store: one list per MongoDB collection.  Actors are
created by the identity collaborator and only their ids are consulted by this
core (`User.findById` existence checks), so users are modelled by their ids.
`nextId` supplies fresh `_id` values for created documents and `now` stands
for the creation timestamp Mongo would record. -/
structure DB where
  users : List Nat
  videos : List Video
  likes : List Like
  subs : List Subscription
  comments : List Comment
  tweets : List Tweet
  playlists : List Playlist
  nextId : Nat
  now : Nat
deriving DecidableEq, Repr

/-! ### Toggle engine (subscription.controller.js, like.controller.js) -/

/-- `toggleSubscription` (subscription.controller.js lines 9-48): check the
channel exists (404), reject self-subscription (400), then flip: if a
subscription `(subscriber = caller, channel)` exists delete it by id and
report `isSubscribed = false`, otherwise create one and report
`isSubscribed = true`. -/
def toggleSubscription (callerId channelId : Nat) (db : DB) :
    Except ApiError Bool × DB :=
  match db.users.find? (fun u => u == channelId) with
  | none => (.error ⟨404, "Channel not found"⟩, db)
  | some _ =>
    if channelId == callerId then
      (.error ⟨400, "You cannot subscribe to your own channel"⟩, db)
    else
      match db.subs.find? (fun s => s.subscriber == callerId && s.channel == channelId) with
      | some e =>
        (.ok false, { db with subs := db.subs.filter (fun s => s.id != e.id) })
      | none =>
        (.ok true,
         { db with
             subs := db.subs ++
               [{ id := db.nextId, subscriber := callerId,
                  channel := channelId, createdAt := db.now }],
             nextId := db.nextId + 1 })

/-- `toggleVideoLike` (like controller lines 10-44): check the video exists
(404), then flip the like `(video, likedBy = caller)`: delete it by id and
report `isLiked = false` when found, create it and report `isLiked = true`
otherwise. -/
def toggleVideoLike (callerId videoId : Nat) (db : DB) :
    Except ApiError Bool × DB :=
  match db.videos.find? (fun v => v.id == videoId) with
  | none => (.error ⟨404, "Video not found"⟩, db)
  | some _ =>
    match db.likes.find? (fun l => l.video == some videoId && l.likedBy == callerId) with
    | some e =>
      (.ok false, { db with likes := db.likes.filter (fun l => l.id != e.id) })
    | none =>
      (.ok true,
       { db with
           likes := db.likes ++
             [{ id := db.nextId, likedBy := callerId, video := some videoId,
                comment := none, tweet := none, createdAt := db.now }],
           nextId := db.nextId + 1 })

/-- `toggleCommentLike` (like controller lines 46-80): check the comment
exists (404), then flip the like stored under the key `Comment`
(`comment` field here) for `(comment, likedBy = caller)`. -/
def toggleCommentLike (callerId commentId : Nat) (db : DB) :
    Except ApiError Bool × DB :=
  match db.comments.find? (fun c => c.id == commentId) with
  | none => (.error ⟨404, "Comment not found"⟩, db)
  | some _ =>
    match db.likes.find? (fun l => l.comment == some commentId && l.likedBy == callerId) with
    | some e =>
      (.ok false, { db with likes := db.likes.filter (fun l => l.id != e.id) })
    | none =>
      (.ok true,
       { db with
           likes := db.likes ++
             [{ id := db.nextId, likedBy := callerId, video := none,
                comment := some commentId, tweet := none, createdAt := db.now }],
           nextId := db.nextId + 1 })

/-- `toggleTweetLike` (like controller lines 82-116): check the tweet exists
(404), then flip the like `(tweet, likedBy = caller)`. -/
def toggleTweetLike (callerId tweetId : Nat) (db : DB) :
    Except ApiError Bool × DB :=
  match db.tweets.find? (fun t => t.id == tweetId) with
  | none => (.error ⟨404, "Tweet not found"⟩, db)
  | some _ =>
    match db.likes.find? (fun l => l.tweet == some tweetId && l.likedBy == callerId) with
    | some e =>
      (.ok false, { db with likes := db.likes.filter (fun l => l.id != e.id) })
    | none =>
      (.ok true,
       { db with
           likes := db.likes ++
             [{ id := db.nextId, likedBy := callerId, video := none,
                comment := none, tweet := some tweetId, createdAt := db.now }],
           nextId := db.nextId + 1 })

/-- Presence of the FOLLOW edge `(caller, channel)`: the check
`Subscription.findOne({subscriber, channel})` succeeds. -/
def subPresent (callerId channelId : Nat) (db : DB) : Bool :=
  (db.subs.find? (fun s => s.subscriber == callerId && s.channel == channelId)).isSome

/-- Presence of the video LIKE edge `(caller, video)`: the check
`Like.findOne({video, likedBy})` succeeds. -/
def likePresent (callerId videoId : Nat) (db : DB) : Bool :=
  (db.likes.find? (fun l => l.video == some videoId && l.likedBy == callerId)).isSome

/-- Iterated subscription toggling: apply `toggleSubscription` for the same
pair `n` times, threading the store through. -/
def toggleSubscriptionN (callerId channelId : Nat) : Nat → DB → DB
  | 0, db => db
  | Nat.succ n, db =>
    toggleSubscriptionN callerId channelId n (toggleSubscription callerId channelId db).2

/-- Iterated video-like toggling: apply `toggleVideoLike` for the same pair
`n` times, threading the store through. -/
def toggleVideoLikeN (callerId videoId : Nat) : Nat → DB → DB
  | 0, db => db
  | Nat.succ n, db =>
    toggleVideoLikeN callerId videoId n (toggleVideoLike callerId videoId db).2

/-- Two subscriptions denote the same FOLLOW triple: same source actor and
same target channel. -/
def sameSubKey (s t : Subscription) : Prop :=
  s.subscriber = t.subscriber ∧ s.channel = t.channel

instance (s t : Subscription) : Decidable (sameSubKey s t) :=
  inferInstanceAs (Decidable (_ ∧ _))

/-- Two likes denote the same LIKE triple: same liking actor and same
(non-null) target field. -/
def sameLikeKey (a b : Like) : Prop :=
  a.likedBy = b.likedBy ∧
    ((a.video = b.video ∧ a.video ≠ none) ∨
     (a.comment = b.comment ∧ a.comment ≠ none) ∨
     (a.tweet = b.tweet ∧ a.tweet ≠ none))

instance (a b : Like) : Decidable (sameLikeKey a b) :=
  inferInstanceAs (Decidable (_ ∧ _))

/-- The §3 uniqueness invariant for FOLLOW edges: no two subscription records
share the `(subscriber, channel)` triple. -/
def InvSubs (subs : List Subscription) : Prop :=
  subs.Pairwise (fun s t => ¬ sameSubKey s t)

/-- The §3 uniqueness invariant for LIKE edges: no two like records share the
`(likedBy, target)` triple. -/
def InvLikes (likes : List Like) : Prop :=
  likes.Pairwise (fun a b => ¬ sameLikeKey a b)

instance (subs : List Subscription) : Decidable (InvSubs subs) :=
  inferInstanceAs (Decidable (List.Pairwise _ _))

instance (likes : List Like) : Decidable (InvLikes likes) :=
  inferInstanceAs (Decidable (List.Pairwise _ _))

/-! ### Pagination executor -/

/-- Page of results returned by the external library
`mongoose-aggregate-paginate-v2`, which every list endpoint calls as
`Model.aggregatePaginate(aggregate, {page, limit})`. -/
structure PageResult (α : Type) where
  docs : List α
  totalDocs : Nat
  limit : Nat
  page : Nat
  totalPages : Nat
deriving DecidableEq, Repr

/-- Model of the external library `mongoose-aggregate-paginate-v2` at its
documented contract: append `$skip ((page-1)*limit)` and `$limit limit` to the
aggregation for the window, count the full result set for `totalDocs`, and
report `totalPages = ceil(totalDocs / limit)` with `page` and `limit` echoed
back.  The library applies no upper bound to `limit`. -/
def aggregatePaginate {α : Type} (results : List α) (page limit : Nat) :
    PageResult α :=
  { docs := (results.drop ((page - 1) * limit)).take limit
    totalDocs := results.length
    limit := limit
    page := page
    totalPages := (results.length + limit - 1) / limit }

/-- One step of the stable descending sort: insert `x` before the first
element with a strictly smaller key, keeping insertion order among equal
keys. -/
def insertDesc {α : Type} (key : α → Nat) (x : α) : List α → List α
  | [] => [x]
  | y :: ys => if key y < key x then x :: y :: ys else y :: insertDesc key x ys

/-- Stable descending sort by a `Nat` key (the `$sort {createdAt: -1}`
stage). -/
def sortDescBy {α : Type} (key : α → Nat) : List α → List α
  | [] => []
  | x :: xs => insertDesc key x (sortDescBy key xs)

/-- `getUserTweets` (tweet controller lines 27-88): 404 when the user does
not exist, otherwise paginate the aggregation
`$match {owner: userId} -> $lookup owner profile -> $addFields first ->
$sort {createdAt: -1}`.  The owner-profile join decorates each document
one-to-one and is dropped from the document payload here; the matching set
and its order are modelled exactly. -/
def getUserTweets (userId page limit : Nat) (db : DB) :
    Except ApiError (PageResult Tweet) :=
  match db.users.find? (fun u => u == userId) with
  | none => .error ⟨404, "User not found"⟩
  | some _ =>
    .ok (aggregatePaginate
          (sortDescBy Tweet.createdAt (db.tweets.filter (fun t => t.owner == userId)))
          page limit)

/-- `getLikedVideos` (like controller lines 118-242): paginate the
aggregation over likes
`$match {likedBy: caller, video: {$exists: true}} -> $lookup video
-> $addFields first -> $sort {createdAt: -1}`, with `limit` taken from the
request as `parseInt(limit)` and passed to the paginator unchanged.  The
video join decorates each like one-to-one and is dropped from the document
payload here. -/
def getLikedVideos (callerId page limit : Nat) (db : DB) :
    Except ApiError (PageResult Like) :=
  .ok (aggregatePaginate
        (sortDescBy Like.createdAt
          (db.likes.filter (fun l => l.likedBy == callerId && l.video.isSome)))
        page limit)

/-! ### Aggregation pipeline builder (stage lists) -/

/-- One aggregation stage, as pushed by the controllers.  The payloads keep
just enough of the source objects to distinguish the stages: match filters,
the sort specification, `$lookup` joins (source collection, local field,
foreign field, output field), the `$addFields`/`$project` output shaping. -/
inductive Stage where
  | matchPublished : Stage
  | matchOwner : Nat → Stage
  | matchOwnerStatus : Nat → Option Bool → Stage
  | matchText : String → Stage
  | sortStage : String → Int → Stage
  | lookupStage : String → String → String → String → Stage
  | firstField : String → Stage
  | countFields : Stage
  | projectExclude : List String → Stage
deriving DecidableEq, Repr

/-- Sort stage of `getAllVideos` (video controller lines 50-56): use
`{sortBy: sortType == "asc" ? 1 : -1}` when both are supplied, else the
default `{createdAt: -1}`. -/
def getAllVideosSortStage (sortBy sortType : Option String) : Stage :=
  match sortBy, sortType with
  | some f, some t => .sortStage f (if t == "asc" then 1 else -1)
  | _, _ => .sortStage "createdAt" (-1)

/-- The pipeline built by `getAllVideos` (video controller lines 13-84):
`$match {isPublished: true}`, then `$match {owner}` when a valid `userId` is
supplied, then the `$or` regex text `$match` when `query` is supplied, then
the sort stage, then the owner `$lookup` and the `$addFields {owner: $first}`
shaping. -/
def getAllVideosPipeline (userId : Option Nat) (query sortBy sortType : Option String) :
    List Stage :=
  [Stage.matchPublished]
    ++ (match userId with | some u => [Stage.matchOwner u] | none => [])
    ++ (match query with | some q => [Stage.matchText q] | none => [])
    ++ [getAllVideosSortStage sortBy sortType]
    ++ [Stage.lookupStage "users" "owner" "_id" "owner", Stage.firstField "owner"]

/-- The pipeline built by `getChannelVideos` (dashboard controller lines
41-101): one `$match` on owner (plus `isPublished` when `status` is
`published` or `draft`), then the likes `$lookup`, the comments `$lookup`,
the `$addFields` count summaries, the `$project` dropping the raw lists, and
the `$sort {createdAt: -1}` stage last. -/
def getChannelVideosPipeline (userId : Nat) (status : String) : List Stage :=
  [Stage.matchOwnerStatus userId
     (if status == "published" then some true
      else if status == "draft" then some false
      else none),
   Stage.lookupStage "likes" "_id" "video" "likes",
   Stage.lookupStage "comments" "_id" "video" "comments",
   Stage.countFields,
   Stage.projectExclude ["likes", "comments"],
   Stage.sortStage "createdAt" (-1)]

/-- The phase the spec (§4.4) assigns to each stage kind: base filters (0),
text search (1), sort (2), joins (3), output shaping (4). -/
def stageRank : Stage → Nat
  | .matchPublished => 0
  | .matchOwner _ => 0
  | .matchOwnerStatus _ _ => 0
  | .matchText _ => 1
  | .sortStage _ _ => 2
  | .lookupStage _ _ _ _ => 3
  | .firstField _ => 4
  | .countFields => 4
  | .projectExclude _ => 4

/-- A stage is a join stage (`$lookup`). -/
def isJoinStage : Stage → Bool
  | .lookupStage _ _ _ _ => true
  | _ => false

/-- A stage is a sort stage (`$sort`). -/
def isSortStage : Stage → Bool
  | .sortStage _ _ => true
  | _ => false

/-- The spec ordering requirement on one pipeline: no join stage appears
before the first sort stage. -/
def sortBeforeJoins (p : List Stage) : Bool :=
  (p.takeWhile (fun s => !(isSortStage s))).all (fun s => !(isJoinStage s))

/-! ### Ownership-guarded mutations -/

/-- JS truthiness of an optional string request field: absent and the empty
string are falsy. -/
def strTruthy : Option String → Bool
  | some s => s != ""
  | none => false

/-- Whitespace test for the trim model (JavaScript trim removes spaces,
tabs, newlines and carriage returns at both ends). -/
def isWs (c : Char) : Bool :=
  c == ' ' || c == '\t' || c == '\n' || c == '\r'

/-- Executable model of JavaScript string trim: drop leading and trailing
whitespace. -/
def strTrim (s : String) : String :=
  String.mk (((s.data.dropWhile isWs).reverse.dropWhile isWs).reverse)

/-- The check `!x || x.trim() === ""` on an optional string request field. -/
def blankOpt : Option String → Bool
  | some s => strTrim s == ""
  | none => true

/-- The check `x && x.trim() !== ""` used by `updatePlaylist` to decide
whether a field participates in the update. -/
def trimGiven : Option String → Bool
  | some s => strTrim s != ""
  | none => false

/-- Model of the media collaborator `uploadOnCloudinary`: returns the durable
URL for a local file path.  Upload failure is a collaborator fault outside
the scope of the claims, so the upload is modelled as succeeding. -/
def uploadOnCloudinary (localPath : String) : String := localPath

/-- The `$set` update assembled by `updateVideo` (video controller lines
225-246): set `title` when truthy, `description` when truthy, and the
uploaded thumbnail URL when a file was attached. -/
def updateVideoFields (title? desc? thumb? : Option String) (v : Video) : Video :=
  let v1 := match title? with
    | some t => if t != "" then { v with title := t } else v
    | none => v
  let v2 := match desc? with
    | some d => if d != "" then { v1 with description := d } else v1
    | none => v1
  match thumb? with
  | some path => { v2 with thumbnail := uploadOnCloudinary path }
  | none => v2

/-- `updateVideo` (video controller lines 206-251): 404 when the video does
not exist, 403 when the caller is not the owner, otherwise apply the
assembled `$set` (possibly empty) via `findByIdAndUpdate` and return the
updated document.  No check rejects an empty update. -/
def updateVideo (callerId videoId : Nat) (title? desc? thumb? : Option String)
    (db : DB) : Except ApiError Video × DB :=
  match db.videos.find? (fun v => v.id == videoId) with
  | none => (.error ⟨404, "Video not found"⟩, db)
  | some video =>
    if video.owner != callerId then
      (.error ⟨403, "You can only update your own videos"⟩, db)
    else
      (.ok (updateVideoFields title? desc? thumb? video),
       { db with
           videos := db.videos.map (fun v =>
             if v.id == videoId then updateVideoFields title? desc? thumb? v else v) })

/-- `deleteVideo` (video controller lines 253-276): 404 when the video does
not exist, 403 when the caller is not the owner, otherwise
`Video.findByIdAndDelete(videoId)` and nothing else: likes, comments and
playlist memberships are not touched. -/
def deleteVideo (callerId videoId : Nat) (db : DB) : Except ApiError Unit × DB :=
  match db.videos.find? (fun v => v.id == videoId) with
  | none => (.error ⟨404, "Video not found"⟩, db)
  | some video =>
    if video.owner != callerId then
      (.error ⟨403, "You can only delete your own videos"⟩, db)
    else
      (.ok (), { db with videos := db.videos.filter (fun v => v.id != videoId) })

/-- `togglePublishStatus` (video controller lines 278-305): 404 when the
video does not exist, 403 when the caller is not the owner, otherwise flip
`isPublished` via `findByIdAndUpdate` and return the updated document. -/
def togglePublishStatus (callerId videoId : Nat) (db : DB) :
    Except ApiError Video × DB :=
  match db.videos.find? (fun v => v.id == videoId) with
  | none => (.error ⟨404, "Video not found"⟩, db)
  | some video =>
    if video.owner != callerId then
      (.error ⟨403, "You can only toggle publish status of your own videos"⟩, db)
    else
      (.ok { video with isPublished := !video.isPublished },
       { db with
           videos := db.videos.map (fun v =>
             if v.id == videoId then { v with isPublished := !video.isPublished } else v) })

/-- `getVideoById` (video controller lines 150-204): 404 when the id resolves
to no video; otherwise increment that video's `views` by one
(`findByIdAndUpdate {$inc: {views: 1}}`) and return the re-fetched document,
whose `views` already carries the increment. -/
def getVideoById (videoId : Nat) (db : DB) : Except ApiError Video × DB :=
  match db.videos.find? (fun v => v.id == videoId) with
  | none => (.error ⟨404, "Video not found"⟩, db)
  | some video =>
    (.ok { video with views := video.views + 1 },
     { db with
         videos := db.videos.map (fun v =>
           if v.id == videoId then { v with views := v.views + 1 } else v) })

/-- `updateTweet` (tweet controller lines 90-121): 400 when the content is
missing or blank (checked before the lookup), 404 when the tweet does not
exist, 403 when the caller is not the owner, otherwise
`$set {content: content.trim()}`. -/
def updateTweet (callerId tweetId : Nat) (content : Option String) (db : DB) :
    Except ApiError Tweet × DB :=
  if blankOpt content then (.error ⟨400, "Tweet content is required"⟩, db)
  else
    match db.tweets.find? (fun t => t.id == tweetId) with
    | none => (.error ⟨404, "Tweet not found"⟩, db)
    | some tweet =>
      if tweet.owner != callerId then
        (.error ⟨403, "You can only update your own tweets"⟩, db)
      else
        let c := strTrim (content.getD "")
        (.ok { tweet with content := c },
         { db with
             tweets := db.tweets.map (fun t =>
               if t.id == tweetId then { t with content := c } else t) })

/-- `deleteTweet` (tweet controller lines 123-145): 404 when the tweet does
not exist, 403 when the caller is not the owner, otherwise delete it. -/
def deleteTweet (callerId tweetId : Nat) (db : DB) : Except ApiError Unit × DB :=
  match db.tweets.find? (fun t => t.id == tweetId) with
  | none => (.error ⟨404, "Tweet not found"⟩, db)
  | some tweet =>
    if tweet.owner != callerId then
      (.error ⟨403, "You can only delete your own tweets"⟩, db)
    else
      (.ok (), { db with tweets := db.tweets.filter (fun t => t.id != tweetId) })

/-- The `$set` update assembled by `updatePlaylist`: trimmed `name` when
given and non-blank, trimmed `description` likewise. -/
def updatePlaylistFields (name? desc? : Option String) (p : Playlist) : Playlist :=
  let p1 := if trimGiven name? then { p with name := strTrim (name?.getD "") } else p
  if trimGiven desc? then { p1 with description := strTrim (desc?.getD "") } else p1

/-- `updatePlaylist` (playlist controller lines 273-308): 404 when the
playlist does not exist, 403 when the caller is not the owner, 400 when
neither a usable `name` nor a usable `description` was supplied, otherwise
apply the `$set` and return the updated document. -/
def updatePlaylist (callerId playlistId : Nat) (name? desc? : Option String)
    (db : DB) : Except ApiError Playlist × DB :=
  match db.playlists.find? (fun p => p.id == playlistId) with
  | none => (.error ⟨404, "Playlist not found"⟩, db)
  | some pl =>
    if pl.owner != callerId then
      (.error ⟨403, "You can only update your own playlists"⟩, db)
    else if !trimGiven name? && !trimGiven desc? then
      (.error ⟨400, "At least one field (name or description) is required"⟩, db)
    else
      (.ok (updatePlaylistFields name? desc? pl),
       { db with
           playlists := db.playlists.map (fun p =>
             if p.id == playlistId then updatePlaylistFields name? desc? p else p) })

/-- `addVideoToPlaylist` (playlist controller lines 183-219): 404 when the
playlist or the video does not exist, 403 when the caller is not the owner,
400 when the video id is already a member, otherwise `$addToSet` the id. -/
def addVideoToPlaylist (callerId playlistId videoId : Nat) (db : DB) :
    Except ApiError Playlist × DB :=
  match db.playlists.find? (fun p => p.id == playlistId) with
  | none => (.error ⟨404, "Playlist not found"⟩, db)
  | some pl =>
    match db.videos.find? (fun v => v.id == videoId) with
    | none => (.error ⟨404, "Video not found"⟩, db)
    | some _ =>
      if pl.owner != callerId then
        (.error ⟨403, "You can only add videos to your own playlists"⟩, db)
      else if pl.videos.contains videoId then
        (.error ⟨400, "Video is already in the playlist"⟩, db)
      else
        let upd := fun (p : Playlist) =>
          { p with videos := if p.videos.contains videoId then p.videos
                             else p.videos ++ [videoId] }
        (.ok (upd pl),
         { db with
             playlists := db.playlists.map (fun p =>
               if p.id == playlistId then upd p else p) })

/-- `removeVideoFromPlaylist` (playlist controller lines 221-247): 404 when
the playlist does not exist, 403 when the caller is not the owner, otherwise
`$pull` the id (no membership or video-existence check). -/
def removeVideoFromPlaylist (callerId playlistId videoId : Nat) (db : DB) :
    Except ApiError Playlist × DB :=
  match db.playlists.find? (fun p => p.id == playlistId) with
  | none => (.error ⟨404, "Playlist not found"⟩, db)
  | some pl =>
    if pl.owner != callerId then
      (.error ⟨403, "You can only remove videos from your own playlists"⟩, db)
    else
      let upd := fun (p : Playlist) =>
        { p with videos := p.videos.filter (fun v => v != videoId) }
      (.ok (upd pl),
       { db with
           playlists := db.playlists.map (fun p =>
             if p.id == playlistId then upd p else p) })

/-- `deletePlaylist` (playlist controller lines 249-271): 404 when the
playlist does not exist, 403 when the caller is not the owner, otherwise
delete it. -/
def deletePlaylist (callerId playlistId : Nat) (db : DB) :
    Except ApiError Unit × DB :=
  match db.playlists.find? (fun p => p.id == playlistId) with
  | none => (.error ⟨404, "Playlist not found"⟩, db)
  | some pl =>
    if pl.owner != callerId then
      (.error ⟨403, "You can only delete your own playlists"⟩, db)
    else
      (.ok (), { db with playlists := db.playlists.filter (fun p => p.id != playlistId) })

/-! ### Statistics aggregator (dashboard controller) -/

/-- The record returned by `getChannelStats`. -/
structure ChannelStats where
  totalVideos : Nat
  totalViews : Nat
  totalSubscribers : Nat
  totalLikes : Nat
  totalComments : Nat
deriving DecidableEq, Repr

/-- The `{$in: ownedVideoIds}` membership test used by the like and comment
counts: the document's `video` field must be one of the owner's video ids;
documents without the field (likes on comments or tweets) never match. -/
def likeTargetsOwned (ownedIds : List Nat) (l : Like) : Bool :=
  match l.video with
  | some t => ownedIds.contains t
  | none => false

/-- `getChannelStats` (dashboard controller lines 10-39): count the videos
owned by the user, sum their `views` (the `$group $sum` aggregate, 0 when the
owner has no videos), count subscriptions with `channel = userId`, and count
likes and comments whose `video` field is among the owner's video ids. -/
def getChannelStats (userId : Nat) (db : DB) : ChannelStats :=
  let owned := db.videos.filter (fun v => v.owner == userId)
  let ownedIds := owned.map Video.id
  { totalVideos := owned.length
    totalViews := (owned.map Video.views).sum
    totalSubscribers := (db.subs.filter (fun s => s.channel == userId)).length
    totalLikes := (db.likes.filter (likeTargetsOwned ownedIds)).length
    totalComments := (db.comments.filter (fun c => ownedIds.contains c.video)).length }

/-! ### Concrete stores used to exercise the theorems -/

/-- Small concrete store: actors 10 and 20, one published video (id 1) owned
by 10, one like on it by 20, a comment on it, a tweet by 10, and a playlist
of 10 containing the video. -/
def sampleDB : DB where
  users := [10, 20]
  videos := [⟨1, 10, "t", "d", "f", "th", 5, 0, true, 0⟩]
  likes := [⟨5, 20, some 1, none, none, 0⟩]
  subs := []
  comments := [⟨3, 20, 1, "c", 0⟩]
  tweets := [⟨4, 10, "tw", 0⟩]
  playlists := [⟨7, 10, "p", "pd", [1], 0⟩]
  nextId := 100
  now := 9

/-- Store holding 101 likes by actor 7, all on videos: a matching set large
enough to exceed the documented example ceiling of 100. -/
def manyLikesDB : DB where
  users := [7]
  videos := []
  likes := (List.range 101).map (fun i => ⟨i, 7, some 1, none, none, 0⟩)
  subs := []
  comments := []
  tweets := []
  playlists := []
  nextId := 200
  now := 0

/-- Decidable equality for controller results. -/
instance exceptDecEq {e a : Type} [DecidableEq e] [DecidableEq a] :
    DecidableEq (Except e a) := fun x y =>
  match x, y with
  | .error e1, .error e2 =>
    if h : e1 = e2 then .isTrue (by rw [h])
    else .isFalse (fun hc => by cases hc; exact h rfl)
  | .error _, .ok _ => .isFalse (fun hc => Except.noConfusion hc)
  | .ok _, .error _ => .isFalse (fun hc => Except.noConfusion hc)
  | .ok a1, .ok a2 =>
    if h : a1 = a2 then .isTrue (by rw [h])
    else .isFalse (fun hc => by cases hc; exact h rfl)

/-! ## Theorems -/

/-! ### Sorting lemmas -/

theorem insertDesc_length {α : Type} (key : α → Nat) (x : α) (l : List α) :
    (insertDesc key x l).length = l.length + 1 := by
  induction l with
  | nil => rfl
  | cons y ys ih =>
    unfold insertDesc
    by_cases h : key y < key x
    · simp [h]
    · simp [h, ih]

theorem sortDescBy_length {α : Type} (key : α → Nat) (l : List α) :
    (sortDescBy key l).length = l.length := by
  induction l with
  | nil => rfl
  | cons x xs ih =>
    unfold sortDescBy
    rw [insertDesc_length, ih]
    rfl

/-! ### Toggle engine lemmas -/

theorem sameSubKey_symm {s t : Subscription} (h : sameSubKey s t) : sameSubKey t s :=
  ⟨h.1.symm, h.2.symm⟩

theorem notSameSubKey_symm : Symmetric (fun s t => ¬ sameSubKey s t) :=
  fun _ _ hR hk => hR (sameSubKey_symm hk)

theorem sameLikeKey_symm {a b : Like} (h : sameLikeKey a b) : sameLikeKey b a := by
  obtain ⟨h1, h2⟩ := h
  refine ⟨h1.symm, ?_⟩
  rcases h2 with ⟨he, hn⟩ | ⟨he, hn⟩ | ⟨he, hn⟩
  · exact Or.inl ⟨he.symm, he ▸ hn⟩
  · exact Or.inr (Or.inl ⟨he.symm, he ▸ hn⟩)
  · exact Or.inr (Or.inr ⟨he.symm, he ▸ hn⟩)

theorem notSameLikeKey_symm : Symmetric (fun a b => ¬ sameLikeKey a b) :=
  fun _ _ hR hk => hR (sameLikeKey_symm hk)

theorem InvSubs_filter {subs : List Subscription} {β : Subscription → Bool}
    (h : InvSubs subs) : InvSubs (subs.filter β) :=
  h.sublist (List.filter_sublist subs)

theorem InvLikes_filter {likes : List Like} {β : Like → Bool}
    (h : InvLikes likes) : InvLikes (likes.filter β) :=
  h.sublist (List.filter_sublist likes)

theorem sub_remove_absent {subs : List Subscription} {caller channel : Nat}
    {e : Subscription} (hinv : InvSubs subs)
    (hfind : subs.find? (fun s => s.subscriber == caller && s.channel == channel) = some e) :
    (subs.filter (fun s => s.id != e.id)).find?
      (fun s => s.subscriber == caller && s.channel == channel) = none := by
  rw [List.find?_eq_none]
  intro x hx hpx
  obtain ⟨hxmem, hxid⟩ := List.mem_filter.1 hx
  have hpe := List.find?_some hfind
  have hemem := List.mem_of_find?_eq_some hfind
  by_cases hxe : x = e
  · subst hxe; simp at hxid
  · have hkey : sameSubKey x e := by
      simp only [Bool.and_eq_true, beq_iff_eq] at hpx hpe
      exact ⟨hpx.1.trans hpe.1.symm, hpx.2.trans hpe.2.symm⟩
    exact hinv.forall notSameSubKey_symm hxmem hemem hxe hkey

theorem like_remove_absent_video {likes : List Like} {caller vid : Nat}
    {e : Like} (hinv : InvLikes likes)
    (hfind : likes.find? (fun l => l.video == some vid && l.likedBy == caller) = some e) :
    (likes.filter (fun l => l.id != e.id)).find?
      (fun l => l.video == some vid && l.likedBy == caller) = none := by
  rw [List.find?_eq_none]
  intro x hx hpx
  obtain ⟨hxmem, hxid⟩ := List.mem_filter.1 hx
  have hpe := List.find?_some hfind
  have hemem := List.mem_of_find?_eq_some hfind
  by_cases hxe : x = e
  · subst hxe; simp at hxid
  · have hkey : sameLikeKey x e := by
      simp only [Bool.and_eq_true, beq_iff_eq] at hpx hpe
      exact ⟨hpx.2.trans hpe.2.symm,
        Or.inl ⟨hpx.1.trans hpe.1.symm, by simp [hpx.1]⟩⟩
    exact hinv.forall notSameLikeKey_symm hxmem hemem hxe hkey

theorem InvSubs_append {subs : List Subscription} {caller channel nid ts : Nat}
    (hinv : InvSubs subs)
    (hfind : subs.find? (fun s => s.subscriber == caller && s.channel == channel) = none) :
    InvSubs (subs ++ [⟨nid, caller, channel, ts⟩]) := by
  rw [InvSubs, List.pairwise_append]
  refine ⟨hinv, by simp, ?_⟩
  intro a ha b hb hkey
  simp only [List.mem_singleton] at hb
  subst hb
  obtain ⟨h1, h2⟩ := hkey
  exact List.find?_eq_none.1 hfind a ha (by simp [h1, h2])

theorem InvLikes_append_video {likes : List Like} {caller vid nid ts : Nat}
    (hinv : InvLikes likes)
    (hfind : likes.find? (fun l => l.video == some vid && l.likedBy == caller) = none) :
    InvLikes (likes ++ [⟨nid, caller, some vid, none, none, ts⟩]) := by
  rw [InvLikes, List.pairwise_append]
  refine ⟨hinv, by simp, ?_⟩
  intro a ha b hb hkey
  simp only [List.mem_singleton] at hb
  subst hb
  obtain ⟨h1, h2⟩ := hkey
  rcases h2 with ⟨he, _⟩ | ⟨he, hn⟩ | ⟨he, hn⟩
  · exact List.find?_eq_none.1 hfind a ha (by simp [h1, he])
  · exact hn he
  · exact hn he

theorem InvLikes_append_comment {likes : List Like} {caller cid nid ts : Nat}
    (hinv : InvLikes likes)
    (hfind : likes.find? (fun l => l.comment == some cid && l.likedBy == caller) = none) :
    InvLikes (likes ++ [⟨nid, caller, none, some cid, none, ts⟩]) := by
  rw [InvLikes, List.pairwise_append]
  refine ⟨hinv, by simp, ?_⟩
  intro a ha b hb hkey
  simp only [List.mem_singleton] at hb
  subst hb
  obtain ⟨h1, h2⟩ := hkey
  rcases h2 with ⟨he, hn⟩ | ⟨he, _⟩ | ⟨he, hn⟩
  · exact hn he
  · exact List.find?_eq_none.1 hfind a ha (by simp [h1, he])
  · exact hn he

theorem InvLikes_append_tweet {likes : List Like} {caller tid nid ts : Nat}
    (hinv : InvLikes likes)
    (hfind : likes.find? (fun l => l.tweet == some tid && l.likedBy == caller) = none) :
    InvLikes (likes ++ [⟨nid, caller, none, none, some tid, ts⟩]) := by
  rw [InvLikes, List.pairwise_append]
  refine ⟨hinv, by simp, ?_⟩
  intro a ha b hb hkey
  simp only [List.mem_singleton] at hb
  subst hb
  obtain ⟨h1, h2⟩ := hkey
  rcases h2 with ⟨he, hn⟩ | ⟨he, hn⟩ | ⟨he, _⟩
  · exact hn he
  · exact hn he
  · exact List.find?_eq_none.1 hfind a ha (by simp [h1, he])

theorem toggleSubscription_frame (caller channel : Nat) (db : DB) :
    (toggleSubscription caller channel db).2.users = db.users ∧
    (toggleSubscription caller channel db).2.videos = db.videos ∧
    (toggleSubscription caller channel db).2.likes = db.likes ∧
    (toggleSubscription caller channel db).2.comments = db.comments ∧
    (toggleSubscription caller channel db).2.tweets = db.tweets ∧
    (toggleSubscription caller channel db).2.playlists = db.playlists := by
  unfold toggleSubscription
  repeat' split
  all_goals simp

theorem toggleVideoLike_frame (caller vid : Nat) (db : DB) :
    (toggleVideoLike caller vid db).2.users = db.users ∧
    (toggleVideoLike caller vid db).2.videos = db.videos ∧
    (toggleVideoLike caller vid db).2.subs = db.subs ∧
    (toggleVideoLike caller vid db).2.comments = db.comments ∧
    (toggleVideoLike caller vid db).2.tweets = db.tweets ∧
    (toggleVideoLike caller vid db).2.playlists = db.playlists := by
  unfold toggleVideoLike
  repeat' split
  all_goals simp

theorem toggleCommentLike_frame (caller cid : Nat) (db : DB) :
    (toggleCommentLike caller cid db).2.users = db.users ∧
    (toggleCommentLike caller cid db).2.videos = db.videos ∧
    (toggleCommentLike caller cid db).2.subs = db.subs ∧
    (toggleCommentLike caller cid db).2.comments = db.comments ∧
    (toggleCommentLike caller cid db).2.tweets = db.tweets ∧
    (toggleCommentLike caller cid db).2.playlists = db.playlists := by
  unfold toggleCommentLike
  repeat' split
  all_goals simp

theorem toggleTweetLike_frame (caller tid : Nat) (db : DB) :
    (toggleTweetLike caller tid db).2.users = db.users ∧
    (toggleTweetLike caller tid db).2.videos = db.videos ∧
    (toggleTweetLike caller tid db).2.subs = db.subs ∧
    (toggleTweetLike caller tid db).2.comments = db.comments ∧
    (toggleTweetLike caller tid db).2.tweets = db.tweets ∧
    (toggleTweetLike caller tid db).2.playlists = db.playlists := by
  unfold toggleTweetLike
  repeat' split
  all_goals simp

theorem toggleSubscription_flip {caller channel : Nat} {db : DB}
    (hch : channel ∈ db.users) (hne : caller ≠ channel) (hinv : InvSubs db.subs) :
    (toggleSubscription caller channel db).1 = .ok (!subPresent caller channel db) ∧
    subPresent caller channel (toggleSubscription caller channel db).2
      = !subPresent caller channel db ∧
    InvSubs (toggleSubscription caller channel db).2.subs := by
  have hu0 : (db.users.find? (fun u => u == channel)).isSome :=
    List.find?_isSome.2 ⟨channel, hch, by simp⟩
  obtain ⟨u, hu⟩ := Option.isSome_iff_exists.1 hu0
  have hnc : (channel == caller) = false := by
    simp only [beq_eq_false_iff_ne]
    exact fun h => hne h.symm
  cases hfind : db.subs.find? (fun s => s.subscriber == caller && s.channel == channel) with
  | some e =>
    simp only [toggleSubscription, hu, hnc, hfind, Bool.false_eq_true, if_false]
    refine ⟨by simp [subPresent, hfind], ?_, InvSubs_filter hinv⟩
    simp [subPresent, hfind, sub_remove_absent hinv hfind]
  | none =>
    simp only [toggleSubscription, hu, hnc, hfind, Bool.false_eq_true, if_false]
    refine ⟨by simp [subPresent, hfind], ?_, InvSubs_append hinv hfind⟩
    simp only [subPresent, hfind, Option.isSome_none, Bool.not_false]
    exact List.find?_isSome.2
      ⟨⟨db.nextId, caller, channel, db.now⟩, by simp, by simp⟩

theorem toggleVideoLike_flip {caller vid : Nat} {db : DB}
    (hvid : ∃ v ∈ db.videos, v.id = vid) (hinv : InvLikes db.likes) :
    (toggleVideoLike caller vid db).1 = .ok (!likePresent caller vid db) ∧
    likePresent caller vid (toggleVideoLike caller vid db).2
      = !likePresent caller vid db ∧
    InvLikes (toggleVideoLike caller vid db).2.likes := by
  obtain ⟨v, hvmem, hvi⟩ := hvid
  have hw0 : (db.videos.find? (fun x => x.id == vid)).isSome :=
    List.find?_isSome.2 ⟨v, hvmem, by simp [hvi]⟩
  obtain ⟨w, hw⟩ := Option.isSome_iff_exists.1 hw0
  cases hfind : db.likes.find? (fun l => l.video == some vid && l.likedBy == caller) with
  | some e =>
    simp only [toggleVideoLike, hw, hfind]
    refine ⟨by simp [likePresent, hfind], ?_, InvLikes_filter hinv⟩
    simp [likePresent, hfind, like_remove_absent_video hinv hfind]
  | none =>
    simp only [toggleVideoLike, hw, hfind]
    refine ⟨by simp [likePresent, hfind], ?_, InvLikes_append_video hinv hfind⟩
    simp only [likePresent, hfind, Option.isSome_none, Bool.not_false]
    exact List.find?_isSome.2
      ⟨⟨db.nextId, caller, some vid, none, none, db.now⟩, by simp, by simp⟩

theorem toggleSubscriptionN_parity {caller channel : Nat} (n : Nat) {db : DB}
    (hch : channel ∈ db.users) (hne : caller ≠ channel) (hinv : InvSubs db.subs) :
    subPresent caller channel (toggleSubscriptionN caller channel n db)
      = (if n % 2 = 0 then subPresent caller channel db
         else !subPresent caller channel db) := by
  induction n generalizing db with
  | zero => simp [toggleSubscriptionN]
  | succ n ih =>
    have hflip := toggleSubscription_flip hch hne hinv
    have hframe := toggleSubscription_frame caller channel db
    have hch2 : channel ∈ (toggleSubscription caller channel db).2.users := by
      rw [hframe.1]; exact hch
    rw [toggleSubscriptionN, ih hch2 hflip.2.2, hflip.2.1]
    rcases Nat.mod_two_eq_zero_or_one n with h | h
    · have h2 : (n + 1) % 2 = 1 := by omega
      simp [h, h2]
    · have h2 : (n + 1) % 2 = 0 := by omega
      simp [h, h2]

theorem toggleVideoLikeN_parity {caller vid : Nat} (n : Nat) {db : DB}
    (hvid : ∃ v ∈ db.videos, v.id = vid) (hinv : InvLikes db.likes) :
    likePresent caller vid (toggleVideoLikeN caller vid n db)
      = (if n % 2 = 0 then likePresent caller vid db
         else !likePresent caller vid db) := by
  induction n generalizing db with
  | zero => simp [toggleVideoLikeN]
  | succ n ih =>
    have hflip := @toggleVideoLike_flip caller vid db hvid hinv
    have hframe := toggleVideoLike_frame caller vid db
    have hvid2 : ∃ v ∈ (toggleVideoLike caller vid db).2.videos, v.id = vid := by
      rw [hframe.2.1]; exact hvid
    rw [toggleVideoLikeN, ih hvid2 hflip.2.2, hflip.2.1]
    rcases Nat.mod_two_eq_zero_or_one n with h | h
    · have h2 : (n + 1) % 2 = 1 := by omega
      simp [h, h2]
    · have h2 : (n + 1) % 2 = 0 := by omega
      simp [h, h2]

theorem toggleSubscription_inv {caller channel : Nat} {db : DB}
    (hinv : InvSubs db.subs) :
    InvSubs (toggleSubscription caller channel db).2.subs := by
  unfold toggleSubscription
  cases hu : db.users.find? (fun u => u == channel) with
  | none => exact hinv
  | some u =>
    by_cases hc : (channel == caller) = true
    · simp only [hc, if_true]
      exact hinv
    · simp only [Bool.not_eq_true] at hc
      simp only [hc, Bool.false_eq_true, if_false]
      cases hfind : db.subs.find?
          (fun s => s.subscriber == caller && s.channel == channel) with
      | some e => exact InvSubs_filter hinv
      | none => exact InvSubs_append hinv hfind

theorem toggleVideoLike_inv {caller vid : Nat} {db : DB}
    (hinv : InvLikes db.likes) :
    InvLikes (toggleVideoLike caller vid db).2.likes := by
  unfold toggleVideoLike
  cases hv : db.videos.find? (fun v => v.id == vid) with
  | none => exact hinv
  | some v =>
    cases hfind : db.likes.find?
        (fun l => l.video == some vid && l.likedBy == caller) with
    | some e => exact InvLikes_filter hinv
    | none => exact InvLikes_append_video hinv hfind

theorem toggleCommentLike_inv {caller cid : Nat} {db : DB}
    (hinv : InvLikes db.likes) :
    InvLikes (toggleCommentLike caller cid db).2.likes := by
  unfold toggleCommentLike
  cases hc : db.comments.find? (fun c => c.id == cid) with
  | none => exact hinv
  | some c =>
    cases hfind : db.likes.find?
        (fun l => l.comment == some cid && l.likedBy == caller) with
    | some e => exact InvLikes_filter hinv
    | none => exact InvLikes_append_comment hinv hfind

theorem toggleTweetLike_inv {caller tid : Nat} {db : DB}
    (hinv : InvLikes db.likes) :
    InvLikes (toggleTweetLike caller tid db).2.likes := by
  unfold toggleTweetLike
  cases ht : db.tweets.find? (fun t => t.id == tid) with
  | none => exact hinv
  | some t =>
    cases hfind : db.likes.find?
        (fun l => l.tweet == some tid && l.likedBy == caller) with
    | some e => exact InvLikes_filter hinv
    | none => exact InvLikes_append_tweet hinv hfind

theorem toggleSubscription_shape (caller channel : Nat) (db : DB) :
    List.Sublist (toggleSubscription caller channel db).2.subs db.subs ∨
      ∃ n, (toggleSubscription caller channel db).2.subs = db.subs ++ [n] := by
  unfold toggleSubscription
  repeat' split
  all_goals
    first
      | exact Or.inl (List.Sublist.refl _)
      | exact Or.inl (List.filter_sublist _)
      | exact Or.inr ⟨_, rfl⟩

theorem toggleVideoLike_shape (caller vid : Nat) (db : DB) :
    List.Sublist (toggleVideoLike caller vid db).2.likes db.likes ∨
      ∃ n, (toggleVideoLike caller vid db).2.likes = db.likes ++ [n] := by
  unfold toggleVideoLike
  repeat' split
  all_goals
    first
      | exact Or.inl (List.Sublist.refl _)
      | exact Or.inl (List.filter_sublist _)
      | exact Or.inr ⟨_, rfl⟩

theorem toggleCommentLike_shape (caller cid : Nat) (db : DB) :
    List.Sublist (toggleCommentLike caller cid db).2.likes db.likes ∨
      ∃ n, (toggleCommentLike caller cid db).2.likes = db.likes ++ [n] := by
  unfold toggleCommentLike
  repeat' split
  all_goals
    first
      | exact Or.inl (List.Sublist.refl _)
      | exact Or.inl (List.filter_sublist _)
      | exact Or.inr ⟨_, rfl⟩

theorem toggleTweetLike_shape (caller tid : Nat) (db : DB) :
    List.Sublist (toggleTweetLike caller tid db).2.likes db.likes ∨
      ∃ n, (toggleTweetLike caller tid db).2.likes = db.likes ++ [n] := by
  unfold toggleTweetLike
  repeat' split
  all_goals
    first
      | exact Or.inl (List.Sublist.refl _)
      | exact Or.inl (List.filter_sublist _)
      | exact Or.inr ⟨_, rfl⟩

/-! ### Claim C1: toggle parity and single-toggle flip -/

/-- C1: for every valid triple with an existing target (and, for FOLLOW, a
non-self pair) in a store satisfying the uniqueness invariant of section 3,
a single toggle reports the new presence (`false` when the edge was present
and got deleted, `true` when it was absent and got created) and flips the
stored presence; toggling the same triple `n` times leaves the presence
unchanged when `n` is even and flips it when `n` is odd.  Stated for the
subscription toggle and the video-like toggle. -/
theorem C1_toggle_parity :
    (∀ caller channel : Nat, ∀ db : DB, ∀ n : Nat,
      channel ∈ db.users → caller ≠ channel → InvSubs db.subs →
        (toggleSubscription caller channel db).1
            = .ok (!subPresent caller channel db) ∧
        subPresent caller channel (toggleSubscription caller channel db).2
            = !subPresent caller channel db ∧
        subPresent caller channel (toggleSubscriptionN caller channel n db)
            = (if n % 2 = 0 then subPresent caller channel db
               else !subPresent caller channel db)) ∧
    (∀ caller vid : Nat, ∀ db : DB, ∀ n : Nat,
      (∃ v ∈ db.videos, v.id = vid) → InvLikes db.likes →
        (toggleVideoLike caller vid db).1 = .ok (!likePresent caller vid db) ∧
        likePresent caller vid (toggleVideoLike caller vid db).2
            = !likePresent caller vid db ∧
        likePresent caller vid (toggleVideoLikeN caller vid n db)
            = (if n % 2 = 0 then likePresent caller vid db
               else !likePresent caller vid db)) := by
  constructor
  · intro caller channel db n hch hne hinv
    obtain ⟨h1, h2, _⟩ := toggleSubscription_flip hch hne hinv
    exact ⟨h1, h2, toggleSubscriptionN_parity n hch hne hinv⟩
  · intro caller vid db n hvid hinv
    obtain ⟨h1, h2, _⟩ := @toggleVideoLike_flip caller vid db hvid hinv
    exact ⟨h1, h2, toggleVideoLikeN_parity n hvid hinv⟩

/-- Witness for C1: actor 20 toggling a subscription to channel 10 and a like
on video 1 in the concrete store `sampleDB`, with `n = 5` iterations. -/
theorem C1_toggle_parity_witness :
    ((toggleSubscription 20 10 sampleDB).1
        = .ok (!subPresent 20 10 sampleDB) ∧
     subPresent 20 10 (toggleSubscription 20 10 sampleDB).2
        = !subPresent 20 10 sampleDB ∧
     subPresent 20 10 (toggleSubscriptionN 20 10 5 sampleDB)
        = (if 5 % 2 = 0 then subPresent 20 10 sampleDB
           else !subPresent 20 10 sampleDB)) ∧
    ((toggleVideoLike 20 1 sampleDB).1 = .ok (!likePresent 20 1 sampleDB) ∧
     likePresent 20 1 (toggleVideoLike 20 1 sampleDB).2
        = !likePresent 20 1 sampleDB ∧
     likePresent 20 1 (toggleVideoLikeN 20 1 5 sampleDB)
        = (if 5 % 2 = 0 then likePresent 20 1 sampleDB
           else !likePresent 20 1 sampleDB)) :=
  ⟨C1_toggle_parity.1 20 10 sampleDB 5 (by decide) (by decide) (by decide),
   C1_toggle_parity.2 20 1 sampleDB 5 (by decide) (by decide)⟩

/-! ### Claim C2: every toggle preserves the at-most-one-edge invariant -/

/-- C2: in any store where each `(source, target, kind)` triple has at most
one edge, each of the four toggle operations preserves that invariant, for
both FOLLOW edges (subscriptions) and LIKE edges (likes); moreover each
toggle either deletes from or appends one record to its edge collection
(never updates a record in place). -/
theorem C2_unique_edge_invariant :
    ∀ db : DB, InvSubs db.subs → InvLikes db.likes →
      (∀ caller channel : Nat,
        InvSubs (toggleSubscription caller channel db).2.subs ∧
        InvLikes (toggleSubscription caller channel db).2.likes ∧
        (List.Sublist (toggleSubscription caller channel db).2.subs db.subs ∨
          ∃ n, (toggleSubscription caller channel db).2.subs = db.subs ++ [n])) ∧
      (∀ caller vid : Nat,
        InvSubs (toggleVideoLike caller vid db).2.subs ∧
        InvLikes (toggleVideoLike caller vid db).2.likes ∧
        (List.Sublist (toggleVideoLike caller vid db).2.likes db.likes ∨
          ∃ n, (toggleVideoLike caller vid db).2.likes = db.likes ++ [n])) ∧
      (∀ caller cid : Nat,
        InvSubs (toggleCommentLike caller cid db).2.subs ∧
        InvLikes (toggleCommentLike caller cid db).2.likes ∧
        (List.Sublist (toggleCommentLike caller cid db).2.likes db.likes ∨
          ∃ n, (toggleCommentLike caller cid db).2.likes = db.likes ++ [n])) ∧
      (∀ caller tid : Nat,
        InvSubs (toggleTweetLike caller tid db).2.subs ∧
        InvLikes (toggleTweetLike caller tid db).2.likes ∧
        (List.Sublist (toggleTweetLike caller tid db).2.likes db.likes ∨
          ∃ n, (toggleTweetLike caller tid db).2.likes = db.likes ++ [n])) := by
  intro db hs hl
  refine ⟨fun caller channel => ⟨toggleSubscription_inv hs, ?_,
      toggleSubscription_shape caller channel db⟩,
    fun caller vid => ⟨?_, toggleVideoLike_inv hl,
      toggleVideoLike_shape caller vid db⟩,
    fun caller cid => ⟨?_, toggleCommentLike_inv hl,
      toggleCommentLike_shape caller cid db⟩,
    fun caller tid => ⟨?_, toggleTweetLike_inv hl,
      toggleTweetLike_shape caller tid db⟩⟩
  · rw [(toggleSubscription_frame caller channel db).2.2.1]
    exact hl
  · rw [(toggleVideoLike_frame caller vid db).2.2.1]
    exact hs
  · rw [(toggleCommentLike_frame caller cid db).2.2.1]
    exact hs
  · rw [(toggleTweetLike_frame caller tid db).2.2.1]
    exact hs

/-- Witness for C2: the four toggles applied in the concrete store
`sampleDB` all preserve both uniqueness invariants. -/
theorem C2_unique_edge_invariant_witness :
    (InvSubs (toggleSubscription 20 10 sampleDB).2.subs ∧
     InvLikes (toggleSubscription 20 10 sampleDB).2.likes) ∧
    (InvSubs (toggleVideoLike 10 1 sampleDB).2.subs ∧
     InvLikes (toggleVideoLike 10 1 sampleDB).2.likes) ∧
    (InvSubs (toggleCommentLike 10 3 sampleDB).2.subs ∧
     InvLikes (toggleCommentLike 10 3 sampleDB).2.likes) ∧
    (InvSubs (toggleTweetLike 20 4 sampleDB).2.subs ∧
     InvLikes (toggleTweetLike 20 4 sampleDB).2.likes) := by
  have h := C2_unique_edge_invariant sampleDB (by decide) (by decide)
  exact ⟨⟨(h.1 20 10).1, (h.1 20 10).2.1⟩,
         ⟨(h.2.1 10 1).1, (h.2.1 10 1).2.1⟩,
         ⟨(h.2.2.1 10 3).1, (h.2.2.1 10 3).2.1⟩,
         ⟨(h.2.2.2 20 4).1, (h.2.2.2 20 4).2.1⟩⟩

/-! ### Claim C3: owner delete does not cascade -/

/-- C3 counterexample: actor 10 deletes its video 1 from `sampleDB`; the
delete succeeds, yet the like edge targeting video 1 and the playlist
membership of video 1 both remain, contradicting the claimed cascade. -/
theorem C3_delete_cascade_counterexample :
    (deleteVideo 10 1 sampleDB).1 = .ok () ∧
    (∃ l ∈ (deleteVideo 10 1 sampleDB).2.likes, l.video = some 1) ∧
    (∃ p ∈ (deleteVideo 10 1 sampleDB).2.playlists, 1 ∈ p.videos) := by
  decide

/-- C3 amended: a successful owner-initiated delete removes the video itself
(no video with the deleted id remains, all other videos survive) but cascades
nothing: the like, comment and playlist collections are left exactly as they
were, so like edges targeting the deleted video and playlists containing its
id remain. -/
theorem C3_delete_no_cascade :
    ∀ (db : DB) (caller vid : Nat) (v : Video),
      db.videos.find? (fun w => w.id == vid) = some v → v.owner = caller →
        (deleteVideo caller vid db).1 = .ok () ∧
        (deleteVideo caller vid db).2.likes = db.likes ∧
        (deleteVideo caller vid db).2.playlists = db.playlists ∧
        (deleteVideo caller vid db).2.comments = db.comments ∧
        (∀ w ∈ (deleteVideo caller vid db).2.videos, w.id ≠ vid) ∧
        (∀ w ∈ db.videos, w.id ≠ vid → w ∈ (deleteVideo caller vid db).2.videos) := by
  intro db caller vid v hfind howner
  have hbne : (v.owner != caller) = false := by simp [howner]
  simp only [deleteVideo, hfind, hbne, Bool.false_eq_true, if_false]
  refine ⟨by trivial, by trivial, by trivial, by trivial, ?_, ?_⟩
  · intro w hw
    have h2 := (List.mem_filter.1 hw).2
    simpa using h2
  · intro w hw hne
    exact List.mem_filter.2 ⟨hw, by simpa using hne⟩

/-- Witness for the amended C3 theorem on the concrete store. -/
theorem C3_delete_no_cascade_witness :
    (deleteVideo 10 1 sampleDB).1 = .ok () ∧
    (deleteVideo 10 1 sampleDB).2.likes = sampleDB.likes ∧
    (deleteVideo 10 1 sampleDB).2.playlists = sampleDB.playlists ∧
    (deleteVideo 10 1 sampleDB).2.comments = sampleDB.comments ∧
    (∀ w ∈ (deleteVideo 10 1 sampleDB).2.videos, w.id ≠ 1) ∧
    (∀ w ∈ sampleDB.videos, w.id ≠ 1 → w ∈ (deleteVideo 10 1 sampleDB).2.videos) :=
  C3_delete_no_cascade sampleDB 10 1 ⟨1, 10, "t", "d", "f", "th", 5, 0, true, 0⟩
    (by decide) (by decide)

/-! ### Claim C10: getVideoById increments exactly the target video -/

theorem find?_cons_eq {a : Type} (p : a → Bool) (x : a) (l : List a) :
    (x :: l).find? p = if p x then some x else l.find? p := by
  by_cases h : p x = true
  · rw [List.find?_cons_of_pos _ h, if_pos h]
  · rw [List.find?_cons_of_neg _ (by simpa using h), if_neg (by simpa using h)]

theorem find?_map_bump {l : List Video} {vid : Nat} {v : Video}
    (h : l.find? (fun w => w.id == vid) = some v) :
    (l.map (fun w => if w.id == vid then { w with views := w.views + 1 } else w)).find?
      (fun w => w.id == vid) = some { v with views := v.views + 1 } := by
  induction l with
  | nil => simp at h
  | cons a t ih =>
    rw [find?_cons_eq] at h
    simp only [List.map_cons]
    rw [find?_cons_eq]
    by_cases ha : (a.id == vid) = true
    · rw [if_pos ha] at h
      injection h with h
      subst h
      simp [ha]
    · have ha2 : (a.id == vid) = false := by simpa using ha
      rw [if_neg (by simp [ha2])] at h
      have h3 := ih h
      simpa [ha2] using h3

theorem mem_map_bump_of_ne {l : List Video} {vid : Nat} {w : Video}
    (hw : w ∈ l) (hne : w.id ≠ vid) :
    w ∈ l.map (fun x => if x.id == vid then { x with views := x.views + 1 } else x) :=
  List.mem_map.2 ⟨w, hw, by simp [hne]⟩

theorem mem_of_mem_map_bump_ne {l : List Video} {vid : Nat} {w : Video}
    (hw : w ∈ l.map (fun x => if x.id == vid then { x with views := x.views + 1 } else x))
    (hne : w.id ≠ vid) : w ∈ l := by
  obtain ⟨x, hx, hfx⟩ := List.mem_map.1 hw
  by_cases hxid : (x.id == vid) = true
  · rw [if_pos hxid] at hfx
    exfalso
    apply hne
    rw [← hfx]
    simpa using hxid
  · rw [if_neg hxid] at hfx
    rw [← hfx]
    exact hx

/-- C10: fetching a video by id returns 404 and changes nothing when the id
resolves to no video; when it resolves to a video, its `views` counter is
incremented by exactly one (the first record with that id in the updated
store differs from the old one only in `views`), all videos with other ids
are preserved both ways, the video count is unchanged, and every other
collection of the store is untouched. -/
theorem C10_get_video_frame :
    (∀ (db : DB) (vid : Nat),
      db.videos.find? (fun w => w.id == vid) = none →
        getVideoById vid db = (.error ⟨404, "Video not found"⟩, db)) ∧
    (∀ (db : DB) (vid : Nat) (v : Video),
      db.videos.find? (fun w => w.id == vid) = some v →
        (getVideoById vid db).1 = .ok { v with views := v.views + 1 } ∧
        (getVideoById vid db).2.videos.find? (fun w => w.id == vid)
            = some { v with views := v.views + 1 } ∧
        (∀ w ∈ db.videos, w.id ≠ vid → w ∈ (getVideoById vid db).2.videos) ∧
        (∀ w ∈ (getVideoById vid db).2.videos, w.id ≠ vid → w ∈ db.videos) ∧
        (getVideoById vid db).2.videos.length = db.videos.length ∧
        (getVideoById vid db).2.users = db.users ∧
        (getVideoById vid db).2.likes = db.likes ∧
        (getVideoById vid db).2.subs = db.subs ∧
        (getVideoById vid db).2.comments = db.comments ∧
        (getVideoById vid db).2.tweets = db.tweets ∧
        (getVideoById vid db).2.playlists = db.playlists ∧
        (getVideoById vid db).2.nextId = db.nextId) := by
  constructor
  · intro db vid hfind
    simp [getVideoById, hfind]
  · intro db vid v hfind
    simp only [getVideoById, hfind]
    refine ⟨by trivial, find?_map_bump hfind, ?_, ?_, by simp, by trivial, by trivial,
      by trivial, by trivial, by trivial, by trivial, by trivial⟩
    · intro w hw hne
      exact mem_map_bump_of_ne hw hne
    · intro w hw hne
      exact mem_of_mem_map_bump_ne hw hne

/-- Witness for C10 at the concrete store: fetching video 1 bumps its views
from 0 to 1 and leaves everything else in place; fetching the missing id 99
fails with 404 and changes nothing. -/
theorem C10_get_video_frame_witness :
    getVideoById 99 sampleDB = (.error ⟨404, "Video not found"⟩, sampleDB) ∧
    (getVideoById 1 sampleDB).1 = .ok ⟨1, 10, "t", "d", "f", "th", 5, 1, true, 0⟩ ∧
    (getVideoById 1 sampleDB).2.likes = sampleDB.likes :=
  ⟨C10_get_video_frame.1 sampleDB 99 (by decide),
   (C10_get_video_frame.2 sampleDB 1 ⟨1, 10, "t", "d", "f", "th", 5, 0, true, 0⟩
      (by decide)).1,
   (C10_get_video_frame.2 sampleDB 1 ⟨1, 10, "t", "d", "f", "th", 5, 0, true, 0⟩
      (by decide)).2.2.2.2.2.2.1⟩

/-! ### Claim C8: empty updates -/

/-- C8 counterexample: the owner (actor 10) calls `updateVideo` on video 1 of
`sampleDB` supplying no title, no description and no thumbnail; the call
succeeds with the unchanged video and the store is untouched, instead of
failing with an InvalidOperation error. -/
theorem C8_empty_update_counterexample :
    (updateVideo 10 1 none none none sampleDB).1
        = .ok ⟨1, 10, "t", "d", "f", "th", 5, 0, true, 0⟩ ∧
    (updateVideo 10 1 none none none sampleDB).2 = sampleDB := by
  decide

/-- C8 amended: `updatePlaylist` by the owner with no usable field fails with
the 400 InvalidOperation error and leaves the store unchanged, but
`updateVideo` by the owner with no fields supplied succeeds as a no-op write:
it returns the unchanged video and leaves the store unchanged. -/
theorem C8_empty_update_behaviour :
    (∀ (db : DB) (caller pid : Nat) (name? desc? : Option String) (pl : Playlist),
      db.playlists.find? (fun p => p.id == pid) = some pl → pl.owner = caller →
      trimGiven name? = false → trimGiven desc? = false →
        updatePlaylist caller pid name? desc? db
          = (.error ⟨400, "At least one field (name or description) is required"⟩, db)) ∧
    (∀ (db : DB) (caller vid : Nat) (v : Video),
      db.videos.find? (fun w => w.id == vid) = some v → v.owner = caller →
        updateVideo caller vid none none none db = (.ok v, db)) := by
  constructor
  · intro db caller pid name? desc? pl hfind howner hn hd
    have hbne : (pl.owner != caller) = false := by simp [howner]
    simp [updatePlaylist, hfind, hbne, hn, hd]
  · intro db caller vid v hfind howner
    have hbne : (v.owner != caller) = false := by simp [howner]
    have hid : updateVideoFields none none none = fun v => v := rfl
    simp only [updateVideo, hfind, hbne, Bool.false_eq_true, if_false, hid,
      ite_self, List.map_id']

/-- Witness for the amended C8 theorem on the concrete store: the empty
playlist update fails with 400 while the empty video update succeeds. -/
theorem C8_empty_update_behaviour_witness :
    updatePlaylist 10 7 none none sampleDB
        = (.error ⟨400, "At least one field (name or description) is required"⟩,
           sampleDB) ∧
    updateVideo 10 1 none none none sampleDB
        = (.ok ⟨1, 10, "t", "d", "f", "th", 5, 0, true, 0⟩, sampleDB) :=
  ⟨C8_empty_update_behaviour.1 sampleDB 10 7 none none ⟨7, 10, "p", "pd", [1], 0⟩
      (by decide) (by decide) (by decide) (by decide),
   C8_empty_update_behaviour.2 sampleDB 10 1 ⟨1, 10, "t", "d", "f", "th", 5, 0, true, 0⟩
      (by decide) (by decide)⟩

/-! ### Claim C7: ownership guard lemmas -/

theorem updateVideo_forbidden {db : DB} {caller vid : Nat}
    {title? desc? thumb? : Option String} {v : Video}
    (hfind : db.videos.find? (fun w => w.id == vid) = some v)
    (hne : v.owner ≠ caller) :
    updateVideo caller vid title? desc? thumb? db
      = (.error ⟨403, "You can only update your own videos"⟩, db) := by
  have hb : (v.owner != caller) = true := by simpa using hne
  simp [updateVideo, hfind, hb]

theorem updateVideo_ok_owner {db : DB} {caller vid : Nat}
    {title? desc? thumb? : Option String} {x : Video}
    (h : (updateVideo caller vid title? desc? thumb? db).1 = .ok x) :
    ∃ v, db.videos.find? (fun w => w.id == vid) = some v ∧ v.owner = caller := by
  cases hfind : db.videos.find? (fun w => w.id == vid) with
  | none => simp [updateVideo, hfind] at h
  | some v =>
    by_cases hb : (v.owner != caller) = true
    · simp [updateVideo, hfind, hb] at h
    · exact ⟨v, rfl, by simpa using hb⟩

theorem deleteVideo_forbidden {db : DB} {caller vid : Nat} {v : Video}
    (hfind : db.videos.find? (fun w => w.id == vid) = some v)
    (hne : v.owner ≠ caller) :
    deleteVideo caller vid db
      = (.error ⟨403, "You can only delete your own videos"⟩, db) := by
  have hb : (v.owner != caller) = true := by simpa using hne
  simp [deleteVideo, hfind, hb]

theorem deleteVideo_ok_owner {db : DB} {caller vid : Nat} {x : Unit}
    (h : (deleteVideo caller vid db).1 = .ok x) :
    ∃ v, db.videos.find? (fun w => w.id == vid) = some v ∧ v.owner = caller := by
  cases hfind : db.videos.find? (fun w => w.id == vid) with
  | none => simp [deleteVideo, hfind] at h
  | some v =>
    by_cases hb : (v.owner != caller) = true
    · simp [deleteVideo, hfind, hb] at h
    · exact ⟨v, rfl, by simpa using hb⟩

theorem togglePublishStatus_forbidden {db : DB} {caller vid : Nat} {v : Video}
    (hfind : db.videos.find? (fun w => w.id == vid) = some v)
    (hne : v.owner ≠ caller) :
    togglePublishStatus caller vid db
      = (.error ⟨403, "You can only toggle publish status of your own videos"⟩, db) := by
  have hb : (v.owner != caller) = true := by simpa using hne
  simp [togglePublishStatus, hfind, hb]

theorem togglePublishStatus_ok_owner {db : DB} {caller vid : Nat} {x : Video}
    (h : (togglePublishStatus caller vid db).1 = .ok x) :
    ∃ v, db.videos.find? (fun w => w.id == vid) = some v ∧ v.owner = caller := by
  cases hfind : db.videos.find? (fun w => w.id == vid) with
  | none => simp [togglePublishStatus, hfind] at h
  | some v =>
    by_cases hb : (v.owner != caller) = true
    · simp [togglePublishStatus, hfind, hb] at h
    · exact ⟨v, rfl, by simpa using hb⟩

theorem updateTweet_forbidden {db : DB} {caller tid : Nat}
    {content : Option String} {t : Tweet}
    (hc : blankOpt content = false)
    (hfind : db.tweets.find? (fun x => x.id == tid) = some t)
    (hne : t.owner ≠ caller) :
    updateTweet caller tid content db
      = (.error ⟨403, "You can only update your own tweets"⟩, db) := by
  have hb : (t.owner != caller) = true := by simpa using hne
  simp [updateTweet, hc, hfind, hb]

theorem updateTweet_ok_owner {db : DB} {caller tid : Nat}
    {content : Option String} {x : Tweet}
    (h : (updateTweet caller tid content db).1 = .ok x) :
    ∃ t, db.tweets.find? (fun w => w.id == tid) = some t ∧ t.owner = caller := by
  by_cases hc : blankOpt content = true
  · simp [updateTweet, hc] at h
  · have hc2 : blankOpt content = false := by simpa using hc
    cases hfind : db.tweets.find? (fun w => w.id == tid) with
    | none => simp [updateTweet, hc2, hfind] at h
    | some t =>
      by_cases hb : (t.owner != caller) = true
      · simp [updateTweet, hc2, hfind, hb] at h
      · exact ⟨t, rfl, by simpa using hb⟩

theorem deleteTweet_forbidden {db : DB} {caller tid : Nat} {t : Tweet}
    (hfind : db.tweets.find? (fun x => x.id == tid) = some t)
    (hne : t.owner ≠ caller) :
    deleteTweet caller tid db
      = (.error ⟨403, "You can only delete your own tweets"⟩, db) := by
  have hb : (t.owner != caller) = true := by simpa using hne
  simp [deleteTweet, hfind, hb]

theorem deleteTweet_ok_owner {db : DB} {caller tid : Nat} {x : Unit}
    (h : (deleteTweet caller tid db).1 = .ok x) :
    ∃ t, db.tweets.find? (fun w => w.id == tid) = some t ∧ t.owner = caller := by
  cases hfind : db.tweets.find? (fun w => w.id == tid) with
  | none => simp [deleteTweet, hfind] at h
  | some t =>
    by_cases hb : (t.owner != caller) = true
    · simp [deleteTweet, hfind, hb] at h
    · exact ⟨t, rfl, by simpa using hb⟩

theorem updatePlaylist_forbidden {db : DB} {caller pid : Nat}
    {name? desc? : Option String} {p : Playlist}
    (hfind : db.playlists.find? (fun x => x.id == pid) = some p)
    (hne : p.owner ≠ caller) :
    updatePlaylist caller pid name? desc? db
      = (.error ⟨403, "You can only update your own playlists"⟩, db) := by
  have hb : (p.owner != caller) = true := by simpa using hne
  simp [updatePlaylist, hfind, hb]

theorem updatePlaylist_ok_owner {db : DB} {caller pid : Nat}
    {name? desc? : Option String} {x : Playlist}
    (h : (updatePlaylist caller pid name? desc? db).1 = .ok x) :
    ∃ p, db.playlists.find? (fun w => w.id == pid) = some p ∧ p.owner = caller := by
  cases hfind : db.playlists.find? (fun w => w.id == pid) with
  | none => simp [updatePlaylist, hfind] at h
  | some p =>
    by_cases hb : (p.owner != caller) = true
    · simp [updatePlaylist, hfind, hb] at h
    · exact ⟨p, rfl, by simpa using hb⟩

theorem addVideoToPlaylist_forbidden {db : DB} {caller pid vid : Nat}
    {p : Playlist} {v : Video}
    (hfind : db.playlists.find? (fun x => x.id == pid) = some p)
    (hv : db.videos.find? (fun x => x.id == vid) = some v)
    (hne : p.owner ≠ caller) :
    addVideoToPlaylist caller pid vid db
      = (.error ⟨403, "You can only add videos to your own playlists"⟩, db) := by
  have hb : (p.owner != caller) = true := by simpa using hne
  simp [addVideoToPlaylist, hfind, hv, hb]

theorem addVideoToPlaylist_ok_owner {db : DB} {caller pid vid : Nat} {x : Playlist}
    (h : (addVideoToPlaylist caller pid vid db).1 = .ok x) :
    ∃ p, db.playlists.find? (fun w => w.id == pid) = some p ∧ p.owner = caller := by
  cases hfind : db.playlists.find? (fun w => w.id == pid) with
  | none => simp [addVideoToPlaylist, hfind] at h
  | some p =>
    cases hv : db.videos.find? (fun w => w.id == vid) with
    | none => simp [addVideoToPlaylist, hfind, hv] at h
    | some v =>
      by_cases hb : (p.owner != caller) = true
      · simp [addVideoToPlaylist, hfind, hv, hb] at h
      · exact ⟨p, rfl, by simpa using hb⟩

theorem removeVideoFromPlaylist_forbidden {db : DB} {caller pid vid : Nat}
    {p : Playlist}
    (hfind : db.playlists.find? (fun x => x.id == pid) = some p)
    (hne : p.owner ≠ caller) :
    removeVideoFromPlaylist caller pid vid db
      = (.error ⟨403, "You can only remove videos from your own playlists"⟩, db) := by
  have hb : (p.owner != caller) = true := by simpa using hne
  simp [removeVideoFromPlaylist, hfind, hb]

theorem removeVideoFromPlaylist_ok_owner {db : DB} {caller pid vid : Nat}
    {x : Playlist}
    (h : (removeVideoFromPlaylist caller pid vid db).1 = .ok x) :
    ∃ p, db.playlists.find? (fun w => w.id == pid) = some p ∧ p.owner = caller := by
  cases hfind : db.playlists.find? (fun w => w.id == pid) with
  | none => simp [removeVideoFromPlaylist, hfind] at h
  | some p =>
    by_cases hb : (p.owner != caller) = true
    · simp [removeVideoFromPlaylist, hfind, hb] at h
    · exact ⟨p, rfl, by simpa using hb⟩

theorem deletePlaylist_forbidden {db : DB} {caller pid : Nat} {p : Playlist}
    (hfind : db.playlists.find? (fun x => x.id == pid) = some p)
    (hne : p.owner ≠ caller) :
    deletePlaylist caller pid db
      = (.error ⟨403, "You can only delete your own playlists"⟩, db) := by
  have hb : (p.owner != caller) = true := by simpa using hne
  simp [deletePlaylist, hfind, hb]

theorem deletePlaylist_ok_owner {db : DB} {caller pid : Nat} {x : Unit}
    (h : (deletePlaylist caller pid db).1 = .ok x) :
    ∃ p, db.playlists.find? (fun w => w.id == pid) = some p ∧ p.owner = caller := by
  cases hfind : db.playlists.find? (fun w => w.id == pid) with
  | none => simp [deletePlaylist, hfind] at h
  | some p =>
    by_cases hb : (p.owner != caller) = true
    · simp [deletePlaylist, hfind, hb] at h
    · exact ⟨p, rfl, by simpa using hb⟩

/-- C7: for every mutating operation on an owned entity (video update,
video delete, publish toggle, tweet update, tweet delete, playlist update,
playlist membership add and remove, playlist delete), if the target entity
exists and the recorded owner differs from the caller then the operation
fails with the 403 Forbidden error and the store is unchanged; conversely
whenever one of these operations succeeds, the target entity existed and its
recorded owner equals the caller.  (For the tweet update the request must
carry non-blank content: blank content is rejected as invalid input before
the guard runs.) -/
theorem C7_ownership_guard :
    ((∀ (db : DB) (caller vid : Nat) (t d th : Option String) (v : Video),
      db.videos.find? (fun w => w.id == vid) = some v → v.owner ≠ caller →
        updateVideo caller vid t d th db
          = (.error ⟨403, "You can only update your own videos"⟩, db)) ∧
     (∀ (db : DB) (caller vid : Nat) (t d th : Option String) (x : Video),
      (updateVideo caller vid t d th db).1 = .ok x →
        ∃ v, db.videos.find? (fun w => w.id == vid) = some v ∧ v.owner = caller)) ∧
    ((∀ (db : DB) (caller vid : Nat) (v : Video),
      db.videos.find? (fun w => w.id == vid) = some v → v.owner ≠ caller →
        deleteVideo caller vid db
          = (.error ⟨403, "You can only delete your own videos"⟩, db)) ∧
     (∀ (db : DB) (caller vid : Nat) (x : Unit),
      (deleteVideo caller vid db).1 = .ok x →
        ∃ v, db.videos.find? (fun w => w.id == vid) = some v ∧ v.owner = caller)) ∧
    ((∀ (db : DB) (caller vid : Nat) (v : Video),
      db.videos.find? (fun w => w.id == vid) = some v → v.owner ≠ caller →
        togglePublishStatus caller vid db
          = (.error ⟨403, "You can only toggle publish status of your own videos"⟩, db)) ∧
     (∀ (db : DB) (caller vid : Nat) (x : Video),
      (togglePublishStatus caller vid db).1 = .ok x →
        ∃ v, db.videos.find? (fun w => w.id == vid) = some v ∧ v.owner = caller)) ∧
    ((∀ (db : DB) (caller tid : Nat) (content : Option String) (t : Tweet),
      blankOpt content = false →
      db.tweets.find? (fun w => w.id == tid) = some t → t.owner ≠ caller →
        updateTweet caller tid content db
          = (.error ⟨403, "You can only update your own tweets"⟩, db)) ∧
     (∀ (db : DB) (caller tid : Nat) (content : Option String) (x : Tweet),
      (updateTweet caller tid content db).1 = .ok x →
        ∃ t, db.tweets.find? (fun w => w.id == tid) = some t ∧ t.owner = caller)) ∧
    ((∀ (db : DB) (caller tid : Nat) (t : Tweet),
      db.tweets.find? (fun w => w.id == tid) = some t → t.owner ≠ caller →
        deleteTweet caller tid db
          = (.error ⟨403, "You can only delete your own tweets"⟩, db)) ∧
     (∀ (db : DB) (caller tid : Nat) (x : Unit),
      (deleteTweet caller tid db).1 = .ok x →
        ∃ t, db.tweets.find? (fun w => w.id == tid) = some t ∧ t.owner = caller)) ∧
    ((∀ (db : DB) (caller pid : Nat) (n d : Option String) (p : Playlist),
      db.playlists.find? (fun w => w.id == pid) = some p → p.owner ≠ caller →
        updatePlaylist caller pid n d db
          = (.error ⟨403, "You can only update your own playlists"⟩, db)) ∧
     (∀ (db : DB) (caller pid : Nat) (n d : Option String) (x : Playlist),
      (updatePlaylist caller pid n d db).1 = .ok x →
        ∃ p, db.playlists.find? (fun w => w.id == pid) = some p ∧ p.owner = caller)) ∧
    ((∀ (db : DB) (caller pid vid : Nat) (p : Playlist) (v : Video),
      db.playlists.find? (fun w => w.id == pid) = some p →
      db.videos.find? (fun w => w.id == vid) = some v → p.owner ≠ caller →
        addVideoToPlaylist caller pid vid db
          = (.error ⟨403, "You can only add videos to your own playlists"⟩, db)) ∧
     (∀ (db : DB) (caller pid vid : Nat) (x : Playlist),
      (addVideoToPlaylist caller pid vid db).1 = .ok x →
        ∃ p, db.playlists.find? (fun w => w.id == pid) = some p ∧ p.owner = caller)) ∧
    ((∀ (db : DB) (caller pid vid : Nat) (p : Playlist),
      db.playlists.find? (fun w => w.id == pid) = some p → p.owner ≠ caller →
        removeVideoFromPlaylist caller pid vid db
          = (.error ⟨403, "You can only remove videos from your own playlists"⟩, db)) ∧
     (∀ (db : DB) (caller pid vid : Nat) (x : Playlist),
      (removeVideoFromPlaylist caller pid vid db).1 = .ok x →
        ∃ p, db.playlists.find? (fun w => w.id == pid) = some p ∧ p.owner = caller)) ∧
    ((∀ (db : DB) (caller pid : Nat) (p : Playlist),
      db.playlists.find? (fun w => w.id == pid) = some p → p.owner ≠ caller →
        deletePlaylist caller pid db
          = (.error ⟨403, "You can only delete your own playlists"⟩, db)) ∧
     (∀ (db : DB) (caller pid : Nat) (x : Unit),
      (deletePlaylist caller pid db).1 = .ok x →
        ∃ p, db.playlists.find? (fun w => w.id == pid) = some p ∧ p.owner = caller)) :=
  ⟨⟨fun _ _ _ _ _ _ _ hf hn => updateVideo_forbidden hf hn,
    fun _ _ _ _ _ _ _ h => updateVideo_ok_owner h⟩,
   ⟨fun _ _ _ _ hf hn => deleteVideo_forbidden hf hn,
    fun _ _ _ _ h => deleteVideo_ok_owner h⟩,
   ⟨fun _ _ _ _ hf hn => togglePublishStatus_forbidden hf hn,
    fun _ _ _ _ h => togglePublishStatus_ok_owner h⟩,
   ⟨fun _ _ _ _ _ hc hf hn => updateTweet_forbidden hc hf hn,
    fun _ _ _ _ _ h => updateTweet_ok_owner h⟩,
   ⟨fun _ _ _ _ hf hn => deleteTweet_forbidden hf hn,
    fun _ _ _ _ h => deleteTweet_ok_owner h⟩,
   ⟨fun _ _ _ _ _ _ hf hn => updatePlaylist_forbidden hf hn,
    fun _ _ _ _ _ _ h => updatePlaylist_ok_owner h⟩,
   ⟨fun _ _ _ _ _ _ hf hv hn => addVideoToPlaylist_forbidden hf hv hn,
    fun _ _ _ _ _ h => addVideoToPlaylist_ok_owner h⟩,
   ⟨fun _ _ _ _ _ hf hn => removeVideoFromPlaylist_forbidden hf hn,
    fun _ _ _ _ _ h => removeVideoFromPlaylist_ok_owner h⟩,
   ⟨fun _ _ _ _ hf hn => deletePlaylist_forbidden hf hn,
    fun _ _ _ _ h => deletePlaylist_ok_owner h⟩⟩

/-- Witness for C7: actor 20 (not the owner, which is actor 10) is rejected
with 403, and the store left unchanged, by all nine guarded mutations on the
concrete store `sampleDB`. -/
theorem C7_ownership_guard_witness :
    updateVideo 20 1 none none none sampleDB
      = (.error ⟨403, "You can only update your own videos"⟩, sampleDB) ∧
    deleteVideo 20 1 sampleDB
      = (.error ⟨403, "You can only delete your own videos"⟩, sampleDB) ∧
    togglePublishStatus 20 1 sampleDB
      = (.error ⟨403, "You can only toggle publish status of your own videos"⟩,
         sampleDB) ∧
    updateTweet 20 4 (some "x") sampleDB
      = (.error ⟨403, "You can only update your own tweets"⟩, sampleDB) ∧
    deleteTweet 20 4 sampleDB
      = (.error ⟨403, "You can only delete your own tweets"⟩, sampleDB) ∧
    updatePlaylist 20 7 (some "n") none sampleDB
      = (.error ⟨403, "You can only update your own playlists"⟩, sampleDB) ∧
    addVideoToPlaylist 20 7 1 sampleDB
      = (.error ⟨403, "You can only add videos to your own playlists"⟩, sampleDB) ∧
    removeVideoFromPlaylist 20 7 1 sampleDB
      = (.error ⟨403, "You can only remove videos from your own playlists"⟩,
         sampleDB) ∧
    deletePlaylist 20 7 sampleDB
      = (.error ⟨403, "You can only delete your own playlists"⟩, sampleDB) :=
  ⟨C7_ownership_guard.1.1 sampleDB 20 1 none none none
      ⟨1, 10, "t", "d", "f", "th", 5, 0, true, 0⟩ (by decide) (by decide),
   C7_ownership_guard.2.1.1 sampleDB 20 1
      ⟨1, 10, "t", "d", "f", "th", 5, 0, true, 0⟩ (by decide) (by decide),
   C7_ownership_guard.2.2.1.1 sampleDB 20 1
      ⟨1, 10, "t", "d", "f", "th", 5, 0, true, 0⟩ (by decide) (by decide),
   C7_ownership_guard.2.2.2.1.1 sampleDB 20 4 (some "x")
      ⟨4, 10, "tw", 0⟩ (by decide) (by decide) (by decide),
   C7_ownership_guard.2.2.2.2.1.1 sampleDB 20 4
      ⟨4, 10, "tw", 0⟩ (by decide) (by decide),
   C7_ownership_guard.2.2.2.2.2.1.1 sampleDB 20 7 (some "n") none
      ⟨7, 10, "p", "pd", [1], 0⟩ (by decide) (by decide),
   C7_ownership_guard.2.2.2.2.2.2.1.1 sampleDB 20 7 1
      ⟨7, 10, "p", "pd", [1], 0⟩ ⟨1, 10, "t", "d", "f", "th", 5, 0, true, 0⟩
      (by decide) (by decide) (by decide),
   C7_ownership_guard.2.2.2.2.2.2.2.1.1 sampleDB 20 7 1
      ⟨7, 10, "p", "pd", [1], 0⟩ (by decide) (by decide),
   C7_ownership_guard.2.2.2.2.2.2.2.2.1 sampleDB 20 7
      ⟨7, 10, "p", "pd", [1], 0⟩ (by decide) (by decide)⟩

/-! ### Claim C9: channel statistics -/

theorem likeTargetsOwned_nil (l : Like) : likeTargetsOwned [] l = false := by
  unfold likeTargetsOwned
  cases l.video <;> simp

theorem sum_views_foldr (userId : Nat) (l : List Video) :
    ((l.filter (fun v => v.owner == userId)).map Video.views).sum
      = l.foldr (fun v a => if v.owner = userId then v.views + a else a) 0 := by
  induction l with
  | nil => simp
  | cons v t ih =>
    by_cases h : v.owner = userId
    · simp [List.filter_cons, h, ih]
    · simp [List.filter_cons, h, ih]

theorem likeTargetsOwned_iff (userId : Nat) (db : DB) (l : Like) :
    likeTargetsOwned ((db.videos.filter (fun v => v.owner == userId)).map Video.id) l
      = decide (∃ v ∈ db.videos, v.owner = userId ∧ l.video = some v.id) := by
  cases hv : l.video with
  | none => simp [likeTargetsOwned, hv]
  | some tgt =>
    simp only [likeTargetsOwned, hv]
    rw [Bool.eq_iff_iff]
    simp only [List.elem_iff, List.mem_map, List.mem_filter, beq_iff_eq,
      decide_eq_true_eq, Option.some.injEq]
    constructor
    · rintro ⟨v, ⟨hvm, hvo⟩, hvi⟩
      exact ⟨v, hvm, hvo, hvi.symm⟩
    · rintro ⟨v, hvm, hvo, hvi⟩
      exact ⟨v, ⟨hvm, hvo⟩, hvi.symm⟩

theorem commentTargetsOwned_iff (userId : Nat) (db : DB) (c : Comment) :
    ((db.videos.filter (fun v => v.owner == userId)).map Video.id).contains c.video
      = decide (∃ v ∈ db.videos, v.owner = userId ∧ c.video = v.id) := by
  rw [Bool.eq_iff_iff]
  simp only [List.elem_iff, List.mem_map, List.mem_filter, beq_iff_eq,
    decide_eq_true_eq]
  constructor
  · rintro ⟨v, ⟨hvm, hvo⟩, hvi⟩
    exact ⟨v, hvm, hvo, hvi.symm⟩
  · rintro ⟨v, hvm, hvo, hvi⟩
    exact ⟨v, ⟨hvm, hvo⟩, hvi.symm⟩

theorem channelStats_zero {userId : Nat} {db : DB}
    (hv : ∀ v ∈ db.videos, v.owner ≠ userId)
    (hs : ∀ s ∈ db.subs, s.channel ≠ userId) :
    getChannelStats userId db = ⟨0, 0, 0, 0, 0⟩ := by
  have hfil : db.videos.filter (fun v => v.owner == userId) = [] :=
    List.filter_eq_nil_iff.2 (fun v hvm => by simpa using hv v hvm)
  have hsub : db.subs.filter (fun s => s.channel == userId) = [] :=
    List.filter_eq_nil_iff.2 (fun s hsm => by simpa using hs s hsm)
  unfold getChannelStats
  simp [hfil, hsub, likeTargetsOwned_nil]

/-- C9: `getChannelStats` for an owner with no videos and no followers
returns the all-zero statistics record (no failure is possible: the
aggregator is total); in general `totalViews` is the sum of the view
counters of the videos owned by the user, and `totalLikes` and
`totalComments` count exactly the likes and comments whose target video is
owned by the user. -/
theorem C9_channel_stats :
    (∀ (db : DB) (userId : Nat),
      (∀ v ∈ db.videos, v.owner ≠ userId) →
      (∀ s ∈ db.subs, s.channel ≠ userId) →
        getChannelStats userId db = ⟨0, 0, 0, 0, 0⟩) ∧
    (∀ (db : DB) (userId : Nat),
      (getChannelStats userId db).totalViews
          = db.videos.foldr (fun v a => if v.owner = userId then v.views + a else a) 0 ∧
      (getChannelStats userId db).totalLikes
          = (db.likes.filter (fun l =>
              decide (∃ v ∈ db.videos, v.owner = userId ∧ l.video = some v.id))).length ∧
      (getChannelStats userId db).totalComments
          = (db.comments.filter (fun c =>
              decide (∃ v ∈ db.videos, v.owner = userId ∧ c.video = v.id))).length) := by
  constructor
  · intro db userId hv hs
    exact channelStats_zero hv hs
  · intro db userId
    refine ⟨sum_views_foldr userId db.videos, ?_, ?_⟩
    · unfold getChannelStats
      simp only []
      congr 1
      exact List.filter_congr (fun l _ => likeTargetsOwned_iff userId db l)
    · unfold getChannelStats
      simp only []
      congr 1
      exact List.filter_congr (fun c _ => commentTargetsOwned_iff userId db c)

/-- Witness for C9: actor 99 owns nothing and has no followers in
`sampleDB`, so its stats are all zero; the stats of actor 10 satisfy the
general view-sum characterisation. -/
theorem C9_channel_stats_witness :
    getChannelStats 99 sampleDB = ⟨0, 0, 0, 0, 0⟩ ∧
    (getChannelStats 10 sampleDB).totalViews
        = sampleDB.videos.foldr (fun v a => if v.owner = 10 then v.views + a else a) 0 :=
  ⟨C9_channel_stats.1 sampleDB 99 (by decide) (by decide),
   (C9_channel_stats.2 sampleDB 10).1⟩

/-! ### Claim C4: pages beyond totalPages -/

theorem le_ceil_mul {L limit : Nat} (hl : 1 ≤ limit) :
    L ≤ ((L + limit - 1) / limit) * limit := by
  have hd := Nat.div_add_mod (L + limit - 1) limit
  have hm : (L + limit - 1) % limit < limit := Nat.mod_lt _ hl
  calc L = (L + limit - 1) - (limit - 1) := by omega
    _ ≤ (L + limit - 1) - (L + limit - 1) % limit :=
        Nat.sub_le_sub_left (Nat.le_pred_of_lt hm) _
    _ = limit * ((L + limit - 1) / limit) := Nat.sub_eq_of_eq_add hd.symm
    _ = ((L + limit - 1) / limit) * limit := Nat.mul_comm _ _

theorem ceil_mul_lt {L limit : Nat} (hl : 1 ≤ limit) :
    ((L + limit - 1) / limit) * limit < L + limit :=
  lt_of_le_of_lt (Nat.div_mul_le_self _ _) (by omega)

theorem paginate_beyond_empty {α : Type} {results : List α} {page limit : Nat}
    (hl : 1 ≤ limit)
    (hp : (aggregatePaginate results page limit).totalPages < page) :
    (aggregatePaginate results page limit).docs = [] := by
  unfold aggregatePaginate at hp ⊢
  simp only [] at hp ⊢
  have h1 : results.length ≤ ((results.length + limit - 1) / limit) * limit :=
    le_ceil_mul hl
  have h2 : ((results.length + limit - 1) / limit) * limit ≤ (page - 1) * limit :=
    Nat.mul_le_mul_right _ (by omega)
  rw [List.drop_eq_nil_of_le (le_trans h1 h2)]
  simp

/-- C4: for any pipeline result set and any `page ≥ 1`, `limit ≥ 1` with
`page` beyond `totalPages`, the paginator returns an empty document list
(not an error), the exact size of the full matching set as `totalDocs`, a
`totalPages` that is the ceiling of `totalDocs / limit` (characterised by
`totalDocs ≤ totalPages * limit < totalDocs + limit`), and echoes `page` and
`limit`; `getUserTweets` inherits this: past-the-end pages of a user with
matching tweets give zero documents together with the exact matching count. -/
theorem C4_page_beyond_total :
    (∀ (α : Type) (results : List α) (page limit : Nat),
      1 ≤ limit → 1 ≤ page →
      (aggregatePaginate results page limit).totalPages < page →
        (aggregatePaginate results page limit).docs = [] ∧
        (aggregatePaginate results page limit).totalDocs = results.length ∧
        (aggregatePaginate results page limit).totalDocs
            ≤ (aggregatePaginate results page limit).totalPages * limit ∧
        (aggregatePaginate results page limit).totalPages * limit
            < (aggregatePaginate results page limit).totalDocs + limit ∧
        (aggregatePaginate results page limit).page = page ∧
        (aggregatePaginate results page limit).limit = limit) ∧
    (∀ (db : DB) (userId page limit : Nat) (pr : PageResult Tweet),
      1 ≤ limit →
      getUserTweets userId page limit db = .ok pr →
      pr.totalPages < page →
        pr.docs = [] ∧
        pr.totalDocs = (db.tweets.filter (fun t => t.owner == userId)).length) := by
  constructor
  · intro α results page limit hl hp hbeyond
    exact ⟨paginate_beyond_empty hl hbeyond, rfl, le_ceil_mul hl, ceil_mul_lt hl,
      rfl, rfl⟩
  · intro db userId page limit pr hl hok hbeyond
    unfold getUserTweets at hok
    cases hu : db.users.find? (fun u => u == userId) with
    | none => rw [hu] at hok; exact absurd hok (by simp)
    | some u =>
      rw [hu] at hok
      injection hok with hok
      subst hok
      refine ⟨paginate_beyond_empty hl hbeyond, ?_⟩
      unfold aggregatePaginate
      simp [sortDescBy_length]

/-- Witness for C4: page 4 with limit 1 over a three-element result set, and
page 2 with limit 10 over the single tweet of actor 10 in `sampleDB`. -/
theorem C4_page_beyond_total_witness :
    (aggregatePaginate [0, 1, 2] 4 1).docs = ([] : List Nat) ∧
    ((⟨[], 1, 10, 2, 1⟩ : PageResult Tweet).docs = [] ∧
     (⟨[], 1, 10, 2, 1⟩ : PageResult Tweet).totalDocs
        = (sampleDB.tweets.filter (fun t => t.owner == 10)).length) :=
  ⟨(C4_page_beyond_total.1 Nat [0, 1, 2] 4 1 (by decide) (by decide) (by decide)).1,
   C4_page_beyond_total.2 sampleDB 10 2 10 ⟨[], 1, 10, 2, 1⟩ (by decide) (by decide)
     (by decide)⟩

/-! ### Claim C5: no limit ceiling -/

/-- C5 counterexample: actor 7 requests `getLikedVideos` with limit 101
against 101 matching likes in `manyLikesDB`; the returned page echoes the
requested limit 101 and carries 101 documents, which exceeds the documented
example ceiling of 100, so no clamp is applied. -/
theorem C5_limit_clamp_counterexample :
    (getLikedVideos 7 1 101 manyLikesDB).map (fun pr => pr.docs.length)
        = .ok 101 ∧
    (getLikedVideos 7 1 101 manyLikesDB).map (fun pr => pr.limit) = .ok 101 ∧
    ¬ (101 : Nat) ≤ 100 := by
  decide

/-- C5 amended: the applied limit is exactly the requested limit, with no
upper bound: the paginator echoes it back and the returned page carries
`min limit (totalDocs - (page-1)*limit)` documents, which grows without
bound in the requested limit. -/
theorem C5_no_limit_clamp :
    ∀ (α : Type) (results : List α) (page limit : Nat),
      (aggregatePaginate results page limit).limit = limit ∧
      (aggregatePaginate results page limit).docs.length
        = min limit (results.length - (page - 1) * limit) := by
  intro α results page limit
  exact ⟨rfl, by simp [aggregatePaginate]⟩

/-! ### Claim C6: pipeline stage ordering -/

/-- C6 counterexample: the pipeline `getChannelVideos` builds (here for owner
1 with status filter "all") places both join stages before the sort stage —
its last stage is the sort — so the fixed order "sort before every join"
fails for this read view. -/
theorem C6_stage_order_counterexample :
    sortBeforeJoins (getChannelVideosPipeline 1 "all") = false ∧
    (getChannelVideosPipeline 1 "all").getLast?
        = some (Stage.sortStage "createdAt" (-1)) := by
  decide

/-- C6 amended: the `getAllVideos` pipeline does follow the fixed phase
order (base filters, then text search, then sort, then joins, then output
shaping — the phase ranks along the stage list never decrease, and the sort
precedes every join), but the `getChannelVideos` pipeline instead runs its
joins and count/projection output stages first and always puts its sort
stage last. -/
theorem C6_stage_order :
    (∀ (userId : Option Nat) (query sortBy sortType : Option String),
      List.Pairwise (fun a b => a ≤ b)
        ((getAllVideosPipeline userId query sortBy sortType).map stageRank) ∧
      sortBeforeJoins (getAllVideosPipeline userId query sortBy sortType) = true) ∧
    (∀ (userId : Nat) (status : String),
      sortBeforeJoins (getChannelVideosPipeline userId status) = false ∧
      (getChannelVideosPipeline userId status).getLast?
          = some (Stage.sortStage "createdAt" (-1))) := by
  constructor
  · intro userId query sortBy sortType
    cases userId <;> cases query <;> cases sortBy <;> cases sortType <;>
      simp [getAllVideosPipeline, getAllVideosSortStage, stageRank,
        sortBeforeJoins, isSortStage, isJoinStage, List.takeWhile_cons]
  · intro userId status
    constructor
    · simp [getChannelVideosPipeline, sortBeforeJoins, isSortStage, isJoinStage]
    · simp [getChannelVideosPipeline]

end Chai
